import Mathlib

/-!
Verification of the persistence layer in `src/core/database.py` (PostgreSQL
token/stats/config store).  Dates are modelled as natural numbers (days),
timestamps as natural numbers (an abstract monotone clock), SQL `NULL` as
`Option.none`.  Tables are modelled as lists of rows; `UPDATE ... WHERE`
is a map touching only matching rows; `SELECT ... WHERE ... ORDER BY` is a
filter followed by a sort.
-/

abbrev Date := Nat
abbrev Timestamp := Nat

/-- One row of the `token_stats` table (schema from `init_db`). -/
structure TokenStatsRow where
  token_id : Nat
  image_count : Nat
  video_count : Nat
  error_count : Nat
  last_error_at : Option Timestamp
  today_image_count : Nat
  today_video_count : Nat
  today_error_count : Nat
  today_date : Option Date
  consecutive_error_count : Nat
  deriving Repr, DecidableEq

abbrev StatsDB := List TokenStatsRow

/-- Embedding of `SELECT * FROM token_stats WHERE token_id = $1` returning
the first matching row (`get_token_stats` in the source). -/
def get_token_stats (db : StatsDB) (tid : Nat) : Option TokenStatsRow :=
  db.find? (fun r => r.token_id == tid)

/-- Embedding of `UPDATE token_stats SET ... WHERE token_id = $1`: the
row transformer `g` is applied to every row whose `token_id` matches. -/
def updWhere (tid : Nat) (g : TokenStatsRow → TokenStatsRow) (db : StatsDB) : StatsDB :=
  db.map (fun r => if r.token_id == tid then g r else r)

/-- Embedding of `increment_image_count` (database.py lines 887-912):
fetch `today_date` for the credential; if a row exists and its stored
date differs from today, reset the today counter to 1 while advancing the
date, otherwise add 1 to the today counter; the lifetime counter gains 1
in both branches. -/
def increment_image_count (db : StatsDB) (today : Date) (tid : Nat) : StatsDB :=
  match db.find? (fun r => r.token_id == tid) with
  | some row =>
    if row.today_date ≠ some today then
      updWhere tid (fun r =>
        { r with image_count := r.image_count + 1,
                 today_image_count := 1,
                 today_date := some today }) db
    else
      updWhere tid (fun r =>
        { r with image_count := r.image_count + 1,
                 today_image_count := r.today_image_count + 1,
                 today_date := some today }) db
  | none =>
      updWhere tid (fun r =>
        { r with image_count := r.image_count + 1,
                 today_image_count := r.today_image_count + 1,
                 today_date := some today }) db

/-- Embedding of `increment_video_count` (database.py lines 914-939). -/
def increment_video_count (db : StatsDB) (today : Date) (tid : Nat) : StatsDB :=
  match db.find? (fun r => r.token_id == tid) with
  | some row =>
    if row.today_date ≠ some today then
      updWhere tid (fun r =>
        { r with video_count := r.video_count + 1,
                 today_video_count := 1,
                 today_date := some today }) db
    else
      updWhere tid (fun r =>
        { r with video_count := r.video_count + 1,
                 today_video_count := r.today_video_count + 1,
                 today_date := some today }) db
  | none =>
      updWhere tid (fun r =>
        { r with video_count := r.video_count + 1,
                 today_video_count := r.today_video_count + 1,
                 today_date := some today }) db

/-- Embedding of `increment_error_count` (database.py lines 941-994):
four branches (date changed or not, crossed with the
`increment_consecutive` flag); `last_error_at` is stamped in every
branch. -/
def increment_error_count (db : StatsDB) (today : Date) (now : Timestamp)
    (tid : Nat) (increment_consecutive : Bool) : StatsDB :=
  match db.find? (fun r => r.token_id == tid) with
  | some row =>
    if row.today_date ≠ some today then
      if increment_consecutive then
        updWhere tid (fun r =>
          { r with error_count := r.error_count + 1,
                   consecutive_error_count := r.consecutive_error_count + 1,
                   today_error_count := 1,
                   today_date := some today,
                   last_error_at := some now }) db
      else
        updWhere tid (fun r =>
          { r with error_count := r.error_count + 1,
                   today_error_count := 1,
                   today_date := some today,
                   last_error_at := some now }) db
    else
      if increment_consecutive then
        updWhere tid (fun r =>
          { r with error_count := r.error_count + 1,
                   consecutive_error_count := r.consecutive_error_count + 1,
                   today_error_count := r.today_error_count + 1,
                   today_date := some today,
                   last_error_at := some now }) db
      else
        updWhere tid (fun r =>
          { r with error_count := r.error_count + 1,
                   today_error_count := r.today_error_count + 1,
                   today_date := some today,
                   last_error_at := some now }) db
  | none =>
      if increment_consecutive then
        updWhere tid (fun r =>
          { r with error_count := r.error_count + 1,
                   consecutive_error_count := r.consecutive_error_count + 1,
                   today_error_count := r.today_error_count + 1,
                   today_date := some today,
                   last_error_at := some now }) db
      else
        updWhere tid (fun r =>
          { r with error_count := r.error_count + 1,
                   today_error_count := r.today_error_count + 1,
                   today_date := some today,
                   last_error_at := some now }) db

/-- Looking a credential up after a keyed update returns the transformed
row, provided the transformer does not change the key. -/
theorem get_token_stats_updWhere (db : StatsDB) (tid : Nat)
    (g : TokenStatsRow → TokenStatsRow) (hg : ∀ r, (g r).token_id = r.token_id) :
    get_token_stats (updWhere tid g db) tid = (get_token_stats db tid).map g := by
  induction db with
  | nil => rfl
  | cons a l ih =>
    by_cases h : a.token_id = tid
    · simp [get_token_stats, updWhere, h, hg a]
    · simp only [get_token_stats, updWhere, List.map_cons] at *
      rw [if_neg (by simp [h]), List.find?_cons_of_neg _ (by simp [h]),
        List.find?_cons_of_neg _ (by simp [h])]
      exact ih

/-- C1: for every credential with an existing stats row,
`increment_image_count` / `increment_video_count` are day-rollover-aware:
when the stored `today_date` differs from the current date the per-media
today counter becomes exactly 1 (not added to the stale value) and
`today_date` advances to today, otherwise the today counter gains 1; the
lifetime counter gains exactly 1 in both cases, and no other field of the
stats row changes. -/
theorem increment_media_count_rollover (db : StatsDB) (today : Date) (tid : Nat)
    (row : TokenStatsRow) (h : get_token_stats db tid = some row) :
    get_token_stats (increment_image_count db today tid) tid =
      some { row with image_count := row.image_count + 1,
                      today_image_count :=
                        if row.today_date = some today then row.today_image_count + 1 else 1,
                      today_date := some today } ∧
    get_token_stats (increment_video_count db today tid) tid =
      some { row with video_count := row.video_count + 1,
                      today_video_count :=
                        if row.today_date = some today then row.today_video_count + 1 else 1,
                      today_date := some today } := by
  have h' : db.find? (fun r => r.token_id == tid) = some row := h
  constructor
  · simp only [increment_image_count, h']
    by_cases hd : row.today_date = some today
    · rw [if_neg (by simp [hd]), get_token_stats_updWhere db tid, h]
      · simp [hd]
      · intro r; rfl
    · rw [if_pos hd, get_token_stats_updWhere db tid, h]
      · simp [hd]
      · intro r; rfl
  · simp only [increment_video_count, h']
    by_cases hd : row.today_date = some today
    · rw [if_neg (by simp [hd]), get_token_stats_updWhere db tid, h]
      · simp [hd]
      · intro r; rfl
    · rw [if_pos hd, get_token_stats_updWhere db tid, h]
      · simp [hd]
      · intro r; rfl

/-- Concrete one-row stats table used by the witnesses: yesterday is day 4,
the current day of the increment calls is day 5. -/
def statsEx : TokenStatsRow :=
  { token_id := 7, image_count := 10, video_count := 20, error_count := 3,
    last_error_at := none, today_image_count := 7, today_video_count := 2,
    today_error_count := 2, today_date := some 4, consecutive_error_count := 1 }

/-- Witness for C1: the rollover theorem applied to a concrete one-row
table whose stored date (day 4) differs from today (day 5). -/
theorem increment_media_count_rollover_witness :
    get_token_stats (increment_image_count [statsEx] 5 7) 7 =
      some { statsEx with image_count := statsEx.image_count + 1,
                          today_image_count :=
                            if statsEx.today_date = some 5 then statsEx.today_image_count + 1 else 1,
                          today_date := some 5 } ∧
    get_token_stats (increment_video_count [statsEx] 5 7) 7 =
      some { statsEx with video_count := statsEx.video_count + 1,
                          today_video_count :=
                            if statsEx.today_date = some 5 then statsEx.today_video_count + 1 else 1,
                          today_date := some 5 } :=
  increment_media_count_rollover [statsEx] 5 7 statsEx (by rfl)

/-- C2: for every credential with an existing stats row and every value of
the streak flag, `increment_error_count` applies the day-rollover rule to
`today_error_count` (reset to 1 on a date change, otherwise +1), always
adds exactly 1 to the lifetime `error_count`, adds 1 to
`consecutive_error_count` exactly when the flag is true, and always sets
`last_error_at` to the current time. -/
theorem increment_error_count_rollover (db : StatsDB) (today : Date)
    (now : Timestamp) (tid : Nat) (inc : Bool) (row : TokenStatsRow)
    (h : get_token_stats db tid = some row) :
    get_token_stats (increment_error_count db today now tid inc) tid =
      some { row with
        error_count := row.error_count + 1,
        today_error_count :=
          if row.today_date = some today then row.today_error_count + 1 else 1,
        today_date := some today,
        consecutive_error_count :=
          row.consecutive_error_count + (if inc then 1 else 0),
        last_error_at := some now } := by
  have h' : db.find? (fun r => r.token_id == tid) = some row := h
  simp only [increment_error_count, h']
  by_cases hd : row.today_date = some today
  · rw [if_neg (by simp [hd])]
    cases inc with
    | true =>
      rw [if_pos rfl, get_token_stats_updWhere db tid, h]
      · simp [hd]
      · intro r; rfl
    | false =>
      rw [if_neg (by simp), get_token_stats_updWhere db tid, h]
      · simp [hd]
      · intro r; rfl
  · rw [if_pos hd]
    cases inc with
    | true =>
      rw [if_pos rfl, get_token_stats_updWhere db tid, h]
      · simp [hd]
      · intro r; rfl
    | false =>
      rw [if_neg (by simp), get_token_stats_updWhere db tid, h]
      · simp [hd]
      · intro r; rfl

/-- Witness for C2: same-day increment with the streak flag set, on a
concrete one-row table whose stored date equals today (day 4). -/
theorem increment_error_count_rollover_witness :
    get_token_stats (increment_error_count [statsEx] 4 99 7 true) 7 =
      some { statsEx with
        error_count := statsEx.error_count + 1,
        today_error_count :=
          if statsEx.today_date = some 4 then statsEx.today_error_count + 1 else 1,
        today_date := some 4,
        consecutive_error_count :=
          statsEx.consecutive_error_count + (if true then 1 else 0),
        last_error_at := some 99 } :=
  increment_error_count_rollover [statsEx] 4 99 7 true statsEx (by rfl)

/-- One row of the `tokens` table (schema from `init_db`, including the
columns the additive migration adds). -/
structure TokenRow where
  id : Nat
  token : String
  email : String
  username : String
  name : String
  st : Option String
  rt : Option String
  client_id : Option String
  proxy_url : Option String
  remark : Option String
  expiry_time : Option Timestamp
  is_active : Bool
  cooled_until : Option Timestamp
  created_at : Timestamp
  last_used_at : Option Timestamp
  use_count : Nat
  plan_type : Option String
  plan_title : Option String
  subscription_end : Option Timestamp
  sora2_supported : Option Bool
  sora2_invite_code : Option String
  sora2_redeemed_count : Int
  sora2_total_count : Int
  sora2_remaining_count : Int
  sora2_cooldown_until : Option Timestamp
  image_enabled : Bool
  video_enabled : Bool
  image_concurrency : Int
  video_concurrency : Int
  is_expired : Bool
  deriving Repr, DecidableEq

/-- Embedding of the `WHERE` clause of `get_active_tokens` (database.py
lines 668-674) with SQL three-valued logic collapsed for filtering: a
comparison against `NULL` does not satisfy the condition, while
`cooled_until IS NULL` explicitly does. -/
def token_usable (now : Timestamp) (t : TokenRow) : Bool :=
  t.is_active &&
  (match t.cooled_until with
   | none => true
   | some c => decide (c < now)) &&
  (match t.expiry_time with
   | none => false
   | some e => decide (now < e))

/-- Comparison realizing `ORDER BY last_used_at ASC NULLS FIRST`. -/
def lastUsedLeB (a b : TokenRow) : Bool :=
  match a.last_used_at, b.last_used_at with
  | none, _ => true
  | some _, none => false
  | some x, some y => decide (x ≤ y)

/-- Propositional form of the `NULLS FIRST` ascending order. -/
def lastUsedOrder (a b : TokenRow) : Prop := lastUsedLeB a b = true

instance : DecidableRel lastUsedOrder :=
  fun a b => inferInstanceAs (Decidable (lastUsedLeB a b = true))

instance : IsTotal TokenRow lastUsedOrder := by
  constructor
  intro a b
  unfold lastUsedOrder lastUsedLeB
  rcases a.last_used_at with _ | x <;> rcases b.last_used_at with _ | y <;> simp
  exact Nat.le_total x y

instance : IsTrans TokenRow lastUsedOrder := by
  constructor
  intro a b c
  unfold lastUsedOrder lastUsedLeB
  rcases a.last_used_at with _ | x <;> rcases b.last_used_at with _ | y <;>
    rcases c.last_used_at with _ | z <;> simp
  exact fun h1 h2 => Nat.le_trans h1 h2

/-- Embedding of `get_active_tokens` (database.py lines 664-675):
`SELECT * FROM tokens WHERE ... ORDER BY last_used_at ASC NULLS FIRST` as
a filter followed by a sort. -/
def get_active_tokens (db : List TokenRow) (now : Timestamp) : List TokenRow :=
  List.insertionSort lastUsedOrder (db.filter (token_usable now))

/-- Usability in the words of the specification: active, cooldown absent
or in the past, and expiry present and in the future. -/
def spec_usable (now : Timestamp) (t : TokenRow) : Prop :=
  t.is_active = true ∧
  (t.cooled_until = none ∨ ∃ c, t.cooled_until = some c ∧ c < now) ∧
  (∃ e, t.expiry_time = some e ∧ now < e)

/-- The SQL filter agrees with the specification-level usability
predicate. -/
theorem token_usable_iff_spec (now : Timestamp) (t : TokenRow) :
    token_usable now t = true ↔ spec_usable now t := by
  unfold token_usable spec_usable
  rcases hc : t.cooled_until with _ | c <;> rcases he : t.expiry_time with _ | e <;>
    simp [hc, he, and_assoc]

/-- C5: `get_active_tokens` returns exactly the usable credentials
(active, cooldown null-or-past, expiry in the future) and its output is
sorted by ascending last-used time with never-used credentials first. -/
theorem get_active_tokens_spec (db : List TokenRow) (now : Timestamp) :
    (get_active_tokens db now).Perm (db.filter (token_usable now)) ∧
    (∀ t, t ∈ get_active_tokens db now ↔ t ∈ db ∧ spec_usable now t) ∧
    List.Sorted lastUsedOrder (get_active_tokens db now) := by
  refine ⟨List.perm_insertionSort _ _, ?_, List.sorted_insertionSort _ _⟩
  intro t
  rw [get_active_tokens, List.Perm.mem_iff (List.perm_insertionSort _ _),
    List.mem_filter, token_usable_iff_spec]

/-- A concrete never-used credential with no expiry time, active and not
cooled down. -/
def tokenNoExpiry : TokenRow :=
  { id := 1, token := ("tok-a"), email := ("a@example.com"), username := (""),
    name := ("a"), st := none, rt := none, client_id := none, proxy_url := none,
    remark := none, expiry_time := none, is_active := true, cooled_until := none,
    created_at := 0, last_used_at := none, use_count := 0, plan_type := none,
    plan_title := none, subscription_end := none, sora2_supported := none,
    sora2_invite_code := none, sora2_redeemed_count := 0, sora2_total_count := 0,
    sora2_remaining_count := 0, sora2_cooldown_until := none,
    image_enabled := true, video_enabled := true, image_concurrency := -1,
    video_concurrency := -1, is_expired := false }

/-- A concrete usable credential: active, cooldown in the past, expiry in
the future, last used at time 5. -/
def tokenUsableEx : TokenRow :=
  { tokenNoExpiry with
    id := 2, token := ("tok-b"), expiry_time := some 1000,
    cooled_until := some 10, last_used_at := some 5 }

/-- Witness for C5: the characterization applied to a concrete two-row
table at time 100, from which the permutation conjunct is extracted. -/
theorem get_active_tokens_spec_witness :
    (get_active_tokens [tokenNoExpiry, tokenUsableEx] 100).Perm
      (List.filter (token_usable 100) [tokenNoExpiry, tokenUsableEx]) :=
  (get_active_tokens_spec [tokenNoExpiry, tokenUsableEx] 100).1

/-- C9: a credential whose `expiry_time` is null is never returned by
`get_active_tokens`, even when it is active and not cooled down — the
filter `expiry_time > CURRENT_TIMESTAMP` treats a missing expiry as not
usable rather than as never-expiring. -/
theorem get_active_tokens_null_expiry (db : List TokenRow) (now : Timestamp)
    (t : TokenRow) (hexp : t.expiry_time = none) :
    token_usable now t = false ∧ t ∉ get_active_tokens db now := by
  have hu : token_usable now t = false := by
    unfold token_usable
    rw [hexp]
    simp
  refine ⟨hu, fun hmem => ?_⟩
  have h1 : t ∈ List.filter (token_usable now) db :=
    (List.Perm.mem_iff (List.perm_insertionSort _ _)).mp hmem
  have h2 := (List.mem_filter.mp h1).2
  rw [hu] at h2
  exact absurd h2 (by simp)

/-- Witness for C9: the active, never-cooled credential with null expiry
is excluded from a concrete one-row table at time 100. -/
theorem get_active_tokens_null_expiry_witness :
    token_usable 100 tokenNoExpiry = false ∧
    tokenNoExpiry ∉ get_active_tokens [tokenNoExpiry] 100 :=
  get_active_tokens_null_expiry [tokenNoExpiry] 100 tokenNoExpiry rfl

/-- Modelled from the spec: the credential record type handed to `add`
(the `Token` Pydantic model lives in `src/core/models.py`, which is not
part of the sources; section 3 of the specification lists its fields).
Only the attributes `add_token` reads appear, plus the username the
credential carries. -/
structure TokenInput where
  token : String
  email : String
  username : String
  name : String
  st : Option String
  rt : Option String
  client_id : Option String
  proxy_url : Option String
  remark : Option String
  expiry_time : Option Timestamp
  is_active : Bool
  plan_type : Option String
  plan_title : Option String
  subscription_end : Option Timestamp
  sora2_supported : Option Bool
  sora2_invite_code : Option String
  sora2_redeemed_count : Int
  sora2_total_count : Int
  sora2_remaining_count : Int
  sora2_cooldown_until : Option Timestamp
  image_enabled : Bool
  video_enabled : Bool
  image_concurrency : Int
  video_concurrency : Int
  deriving Repr, DecidableEq

/-- The joint state of the `tokens` and `token_stats` tables, together
with the next value of the `SERIAL` id sequence. -/
structure DBState where
  tokens : List TokenRow
  stats : StatsDB
  next_id : Nat
  deriving Repr, DecidableEq

/-- The row the `INSERT INTO tokens` of `add_token` (database.py lines
609-625) produces: the username column receives the literal empty string
rather than the credential's username; the columns absent from the insert
take their schema defaults (`cooled_until` null, `created_at` now,
`last_used_at` null, `use_count` 0, `is_expired` false). -/
def newTokenRow (t : TokenInput) (id : Nat) (now : Timestamp) : TokenRow :=
  { id := id, token := t.token, email := t.email, username := (""),
    name := t.name, st := t.st, rt := t.rt, client_id := t.client_id,
    proxy_url := t.proxy_url, remark := t.remark, expiry_time := t.expiry_time,
    is_active := t.is_active, cooled_until := none, created_at := now,
    last_used_at := none, use_count := 0, plan_type := t.plan_type,
    plan_title := t.plan_title, subscription_end := t.subscription_end,
    sora2_supported := t.sora2_supported,
    sora2_invite_code := t.sora2_invite_code,
    sora2_redeemed_count := t.sora2_redeemed_count,
    sora2_total_count := t.sora2_total_count,
    sora2_remaining_count := t.sora2_remaining_count,
    sora2_cooldown_until := t.sora2_cooldown_until,
    image_enabled := t.image_enabled, video_enabled := t.video_enabled,
    image_concurrency := t.image_concurrency,
    video_concurrency := t.video_concurrency, is_expired := false }

/-- The zero-valued stats row of `INSERT INTO token_stats (token_id)`:
every other column takes its schema default. -/
def zeroStatsRow (tid : Nat) : TokenStatsRow :=
  { token_id := tid, image_count := 0, video_count := 0, error_count := 0,
    last_error_at := none, today_image_count := 0, today_video_count := 0,
    today_error_count := 0, today_date := none, consecutive_error_count := 0 }

/-- Embedding of `add_token` (database.py lines 605-632).  The two inserts
are two separate statements on one pooled connection with no enclosing
transaction (the file never opens one), so each statement auto-commits;
the flags inject a failure of the respective statement (for example a
unique-constraint violation).  A failure of the first statement leaves
the state untouched and propagates; a failure of the second propagates
but the already committed token row stays. -/
def add_token (db : DBState) (t : TokenInput) (now : Timestamp)
    (tokenInsertFails statsInsertFails : Bool) : Except Unit Nat × DBState :=
  if tokenInsertFails then (Except.error (), db)
  else
    let id := db.next_id
    let db1 : DBState :=
      { db with tokens := db.tokens ++ [newTokenRow t id now], next_id := id + 1 }
    if statsInsertFails then (Except.error (), db1)
    else (Except.ok id, { db1 with stats := db1.stats ++ [zeroStatsRow id] })

/-- An empty database and an arbitrary concrete credential input. -/
def dbEmpty : DBState := { tokens := [], stats := [], next_id := 1 }

/-- A concrete credential input carrying a non-empty username. -/
def tokenInputEx : TokenInput :=
  { token := ("tok-c"), email := ("c@example.com"), username := ("carol"),
    name := ("c"), st := none, rt := none, client_id := none, proxy_url := none,
    remark := none, expiry_time := some 1000, is_active := true,
    plan_type := none, plan_title := none, subscription_end := none,
    sora2_supported := none, sora2_invite_code := none,
    sora2_redeemed_count := 0, sora2_total_count := 0,
    sora2_remaining_count := 0, sora2_cooldown_until := none,
    image_enabled := true, video_enabled := true, image_concurrency := -1,
    video_concurrency := -1 }

/-- Counterexample to C4: starting from an empty database, when the
stats insert fails the overall call fails, yet the committed credential
row survives without a stats row — the claimed all-or-nothing unit of
work does not hold. -/
theorem add_token_not_atomic_cex :
    (add_token dbEmpty tokenInputEx 0 false true).1 = Except.error () ∧
    (add_token dbEmpty tokenInputEx 0 false true).2.tokens =
      [newTokenRow tokenInputEx 1 0] ∧
    (add_token dbEmpty tokenInputEx 0 false true).2.stats = [] := by
  refine ⟨rfl, rfl, rfl⟩

/-- C4 (amended): `add_token` issues the credential insert and the stats
insert as two separate auto-committed statements.  When both succeed the
generated id is returned and both rows exist; when the stats insert
fails the error propagates (no id is returned) but the already inserted
credential row remains, with the stats table unchanged. -/
theorem add_token_amended (db : DBState) (t : TokenInput) (now : Timestamp) :
    (add_token db t now false false).1 = Except.ok db.next_id ∧
    (add_token db t now false false).2.tokens =
      db.tokens ++ [newTokenRow t db.next_id now] ∧
    (add_token db t now false false).2.stats =
      db.stats ++ [zeroStatsRow db.next_id] ∧
    (add_token db t now false true).1 = Except.error () ∧
    (add_token db t now false true).2.tokens =
      db.tokens ++ [newTokenRow t db.next_id now] ∧
    (add_token db t now false true).2.stats = db.stats := by
  refine ⟨rfl, rfl, rfl, rfl, rfl, rfl⟩

/-- C10: for every input credential, the row `add_token` inserts stores
the empty string in the username column; the username carried by the
supplied credential object is discarded. -/
theorem add_token_discards_username (db : DBState) (t : TokenInput)
    (now : Timestamp) :
    (add_token db t now false false).2.tokens =
      db.tokens ++ [newTokenRow t db.next_id now] ∧
    (newTokenRow t db.next_id now).username = ("") := by
  exact ⟨rfl, rfl⟩

/-- The fourteen optional parameters of `update_token` (database.py lines
779-794); `none` means the field was not provided. -/
structure TokenUpdate where
  token : Option String
  st : Option String
  rt : Option String
  client_id : Option String
  proxy_url : Option String
  remark : Option String
  expiry_time : Option Timestamp
  plan_type : Option String
  plan_title : Option String
  subscription_end : Option Timestamp
  image_enabled : Option Bool
  video_enabled : Option Bool
  image_concurrency : Option Int
  video_concurrency : Option Int
  deriving Repr, DecidableEq

/-- The update call with no field provided. -/
def emptyTokenUpdate : TokenUpdate :=
  { token := none, st := none, rt := none, client_id := none,
    proxy_url := none, remark := none, expiry_time := none, plan_type := none,
    plan_title := none, subscription_end := none, image_enabled := none,
    video_enabled := none, image_concurrency := none, video_concurrency := none }

/-- Number of `SET` clauses `update_token` assembles: one per provided
parameter, in the order the source checks them. -/
def providedCount (u : TokenUpdate) : Nat :=
  List.count true
    [u.token.isSome, u.st.isSome, u.rt.isSome, u.client_id.isSome,
     u.proxy_url.isSome, u.remark.isSome, u.expiry_time.isSome,
     u.plan_type.isSome, u.plan_title.isSome, u.subscription_end.isSome,
     u.image_enabled.isSome, u.video_enabled.isSome,
     u.image_concurrency.isSome, u.video_concurrency.isSome]

/-- Effect of the assembled `UPDATE tokens SET ...` on a single row: each
provided parameter overwrites its column, every other column keeps its
value. -/
def applyTokenUpdate (u : TokenUpdate) (r : TokenRow) : TokenRow :=
  { r with
    token := u.token.getD r.token,
    st := u.st.or r.st,
    rt := u.rt.or r.rt,
    client_id := u.client_id.or r.client_id,
    proxy_url := u.proxy_url.or r.proxy_url,
    remark := u.remark.or r.remark,
    expiry_time := u.expiry_time.or r.expiry_time,
    plan_type := u.plan_type.or r.plan_type,
    plan_title := u.plan_title.or r.plan_title,
    subscription_end := u.subscription_end.or r.subscription_end,
    image_enabled := u.image_enabled.getD r.image_enabled,
    video_enabled := u.video_enabled.getD r.video_enabled,
    image_concurrency := u.image_concurrency.getD r.image_concurrency,
    video_concurrency := u.video_concurrency.getD r.video_concurrency }

/-- Embedding of `update_token` (database.py lines 779-875): when at
least one field is provided, one `UPDATE ... WHERE id = $n` statement is
issued; otherwise no statement at all.  The second component counts the
statements issued. -/
def update_token (db : List TokenRow) (tid : Nat) (u : TokenUpdate) :
    List TokenRow × Nat :=
  if providedCount u = 0 then (db, 0)
  else (db.map (fun r => if r.id == tid then applyTokenUpdate u r else r), 1)

/-- C7: `update_token` applies exactly the provided fields.  With no
field provided the call issues no statement and leaves the table as it
is; otherwise the single statement rewrites only the matching rows, and
on a row each provided parameter replaces its column while every column
not named — the fourteen optional ones when absent, and all remaining
columns always — keeps its prior value. -/
theorem update_token_sparse (db : List TokenRow) (tid : Nat)
    (u : TokenUpdate) (r : TokenRow) :
    update_token db tid emptyTokenUpdate = (db, 0) ∧
    (update_token db tid u).1 =
      db.map (fun s =>
        if s.id = tid ∧ providedCount u ≠ 0 then applyTokenUpdate u s else s) ∧
    (applyTokenUpdate u r).token = u.token.getD r.token ∧
    (applyTokenUpdate u r).st = u.st.or r.st ∧
    (applyTokenUpdate u r).rt = u.rt.or r.rt ∧
    (applyTokenUpdate u r).client_id = u.client_id.or r.client_id ∧
    (applyTokenUpdate u r).proxy_url = u.proxy_url.or r.proxy_url ∧
    (applyTokenUpdate u r).remark = u.remark.or r.remark ∧
    (applyTokenUpdate u r).expiry_time = u.expiry_time.or r.expiry_time ∧
    (applyTokenUpdate u r).plan_type = u.plan_type.or r.plan_type ∧
    (applyTokenUpdate u r).plan_title = u.plan_title.or r.plan_title ∧
    (applyTokenUpdate u r).subscription_end =
      u.subscription_end.or r.subscription_end ∧
    (applyTokenUpdate u r).image_enabled =
      u.image_enabled.getD r.image_enabled ∧
    (applyTokenUpdate u r).video_enabled =
      u.video_enabled.getD r.video_enabled ∧
    (applyTokenUpdate u r).image_concurrency =
      u.image_concurrency.getD r.image_concurrency ∧
    (applyTokenUpdate u r).video_concurrency =
      u.video_concurrency.getD r.video_concurrency ∧
    (applyTokenUpdate u r).id = r.id ∧
    (applyTokenUpdate u r).email = r.email ∧
    (applyTokenUpdate u r).username = r.username ∧
    (applyTokenUpdate u r).name = r.name ∧
    (applyTokenUpdate u r).is_active = r.is_active ∧
    (applyTokenUpdate u r).cooled_until = r.cooled_until ∧
    (applyTokenUpdate u r).created_at = r.created_at ∧
    (applyTokenUpdate u r).last_used_at = r.last_used_at ∧
    (applyTokenUpdate u r).use_count = r.use_count ∧
    (applyTokenUpdate u r).sora2_supported = r.sora2_supported ∧
    (applyTokenUpdate u r).sora2_invite_code = r.sora2_invite_code ∧
    (applyTokenUpdate u r).sora2_redeemed_count = r.sora2_redeemed_count ∧
    (applyTokenUpdate u r).sora2_total_count = r.sora2_total_count ∧
    (applyTokenUpdate u r).sora2_remaining_count = r.sora2_remaining_count ∧
    (applyTokenUpdate u r).sora2_cooldown_until = r.sora2_cooldown_until ∧
    (applyTokenUpdate u r).is_expired = r.is_expired := by
  refine ⟨by rfl, ?_, rfl, rfl, rfl, rfl, rfl, rfl, rfl, rfl, rfl, rfl, rfl,
    rfl, rfl, rfl, rfl, rfl, rfl, rfl, rfl, rfl, rfl, rfl, rfl, rfl, rfl,
    rfl, rfl, rfl, rfl, rfl⟩
  by_cases hc : providedCount u = 0
  · rw [update_token, if_pos hc]
    have : (fun s : TokenRow =>
        if s.id = tid ∧ providedCount u ≠ 0 then applyTokenUpdate u s else s) =
        (fun s : TokenRow => s) := by
      funext s
      rw [if_neg (by simp [hc])]
    rw [this, List.map_id']
  · rw [update_token, if_neg hc]
    refine List.map_congr_left (fun s _ => ?_)
    by_cases hid : s.id = tid
    · rw [if_pos (by simp [hid]), if_pos ⟨hid, hc⟩]
    · rw [if_neg (by simp [hid]), if_neg (by simp [hid])]

/-- The `call_logic` section of the overrides structure handed to
`_ensure_config_rows`; `none` means the key is absent from the section
(`dict.get` then falls back to its default). -/
structure CallLogicSection where
  call_mode : Option String
  polling_mode_enabled : Option Bool
  deriving Repr, DecidableEq

/-- Embedding of the call-mode part of `_ensure_config_rows` (database.py
lines 220-241): the `(call_mode, polling_mode_enabled)` pair inserted when
the singleton row is absent.  An absent overrides structure yields the
hard-coded defaults; otherwise `call_mode` is read with default
"default", and only when the resulting value is neither "default" nor
"polling" is the legacy boolean consulted. -/
def ensure_call_logic_row (cfg : Option CallLogicSection) : String × Bool :=
  match cfg with
  | none => (("default"), false)
  | some s =>
    if s.call_mode.getD ("default") ≠ ("default") ∧
        s.call_mode.getD ("default") ≠ ("polling") then
      ((if s.polling_mode_enabled.getD false then ("polling") else ("default")),
        s.polling_mode_enabled.getD false)
    else
      (s.call_mode.getD ("default"), s.call_mode.getD ("default") == ("polling"))

/-- Embedding of `update_call_logic_config` (database.py lines 1325-1343):
any value other than "polling" normalizes to "default", and the legacy
boolean is derived from the normalized value; insert and update branches
store the same pair at the singleton key. -/
def update_call_logic_config (call_mode : String) : String × Bool :=
  ((if call_mode == ("polling") then ("polling") else ("default")),
    (if call_mode == ("polling") then ("polling") else ("default")) == ("polling"))

/-- Counterexample to C3: legacy `polling_mode_enabled = true` with no
enumerated `call_mode` key stores "default" — the absent key defaults to
the recognized literal "default", so the legacy boolean is never
consulted and the claimed result "polling" does not appear. -/
theorem ensure_call_logic_absent_key_cex :
    ensure_call_logic_row
      (some { call_mode := none, polling_mode_enabled := some true }) =
      (("default"), false) ∧
    (("default") : String) ≠ ("polling") := by
  exact ⟨rfl, by decide⟩

/-- C3 (amended): when the enumerated value — after the absent key
defaults to "default" — is one of the two recognized literals, the
boolean is derived from it; only an explicitly supplied unrecognized
value makes the stored pair derive from the legacy boolean.  Hence
legacy `polling_mode_enabled = true` with an absent enumerated key
stores ("default", false).  After any write (bootstrap or
`update_call_logic_config`) the two fields are mutually consistent. -/
theorem ensure_call_logic_amended (s : CallLogicSection) (m : String) :
    (s.call_mode.getD ("default") = ("default") ∨
        s.call_mode.getD ("default") = ("polling") →
      ensure_call_logic_row (some s) =
        (s.call_mode.getD ("default"),
          s.call_mode.getD ("default") == ("polling"))) ∧
    (s.call_mode.getD ("default") ≠ ("default") →
      s.call_mode.getD ("default") ≠ ("polling") →
      ensure_call_logic_row (some s) =
        ((if s.polling_mode_enabled.getD false then ("polling")
          else ("default")), s.polling_mode_enabled.getD false)) ∧
    ensure_call_logic_row
      (some { call_mode := none, polling_mode_enabled := some true }) =
      (("default"), false) ∧
    ((ensure_call_logic_row (some s)).2 = true ↔
      (ensure_call_logic_row (some s)).1 = ("polling")) ∧
    ((update_call_logic_config m).2 = true ↔
      (update_call_logic_config m).1 = ("polling")) := by
  refine ⟨?_, ?_, rfl, ?_, ?_⟩
  · intro h
    rw [ensure_call_logic_row, if_neg (by tauto)]
  · intro h1 h2
    rw [ensure_call_logic_row, if_pos ⟨h1, h2⟩]
  · rw [ensure_call_logic_row]
    by_cases hc : s.call_mode.getD ("default") ≠ ("default") ∧
        s.call_mode.getD ("default") ≠ ("polling")
    · rw [if_pos hc]
      by_cases hp : s.polling_mode_enabled.getD false = true
      · simp [hp]
      · simp [Bool.eq_false_iff.mpr hp]
    · rw [if_neg hc]
      simp only []
      constructor
      · intro h
        exact (beq_iff_eq).mp h
      · intro h
        exact (beq_iff_eq).mpr h
  · by_cases hm : m == ("polling")
    · simp [update_call_logic_config, hm]
    · simp [update_call_logic_config, Bool.eq_false_iff.mpr hm]

/-- Witness for C3 (amended): an explicitly supplied empty-string
enumerated value is unrecognized, so the legacy boolean takes over and
"polling" is stored. -/
theorem ensure_call_logic_amended_witness :
    ensure_call_logic_row
      (some { call_mode := some (""), polling_mode_enabled := some true }) =
      ((if (Option.getD (some true) false) then ("polling") else ("default")),
        Option.getD (some true) false) :=
  (ensure_call_logic_amended
    { call_mode := some (""), polling_mode_enabled := some true }
    ("")).2.1 (by decide) (by decide)

/-- The catalog metadata the probes query: a list of tables, each with
its column names, standing in for `information_schema`. -/
abbrev Catalog := List (String × List String)

/-- Embedding of `_table_exists` (database.py lines 76-81): the probe
query's `EXISTS` result when it runs, the error itself when it fails —
the source wraps this query in no try/except, so a failure propagates. -/
def table_exists (cat : Catalog) (probeFails : Bool) (tbl : String) :
    Except Unit Bool :=
  if probeFails then Except.error ()
  else Except.ok (cat.any (fun p => p.1 == tbl))

/-- Embedding of `_column_exists` (database.py lines 83-94): the same
probe for a column, but wrapped in a bare except that returns False on
any failure. -/
def column_exists (cat : Catalog) (probeFails : Bool) (tbl col : String) :
    Except Unit Bool :=
  if probeFails then Except.ok false
  else Except.ok (cat.any (fun p => p.1 == tbl && p.2.contains col))

/-- Counterexample to C6: a failing table-existence probe propagates the
error instead of reporting "does not exist". -/
theorem table_probe_failure_cex :
    table_exists [] true ("tokens") = Except.error () ∧
    table_exists [] true ("tokens") ≠ Except.ok false := by
  exact ⟨rfl, fun h => Except.noConfusion h⟩

/-- C6 (amended): only the column-existence probe tolerates the probe
query failing, reporting "does not exist"; the table-existence probe
propagates the failure out of the migration. -/
theorem probe_failure_tolerance_amended (cat : Catalog) (tbl col : String) :
    column_exists cat true tbl col = Except.ok false ∧
    table_exists cat true tbl = Except.error () := by
  exact ⟨rfl, rfl⟩

/-- Python string normalization `x if x else None` applied to an
optional field read with `.get(key, "")`: an absent key, an explicit
empty string and any other falsy read all store NULL. -/
def pyStrOrNone (o : Option String) : Option String :=
  match o with
  | none => none
  | some v => if v = ("") then none else some v

/-- The `proxy` section of the overrides structure. -/
structure ProxySection where
  proxy_enabled : Option Bool
  proxy_url : Option String
  deriving Repr, DecidableEq

/-- The `watermark_free` section of the overrides structure. -/
structure WatermarkSection where
  watermark_free_enabled : Option Bool
  parse_method : Option String
  custom_parse_url : Option String
  custom_parse_token : Option String
  fallback_on_failure : Option Bool
  deriving Repr, DecidableEq

/-- The `cache` section of the overrides structure. -/
structure CacheSection where
  enabled : Option Bool
  timeout : Option Int
  base_url : Option String
  deriving Repr, DecidableEq

/-- The `pow_proxy` section of the overrides structure. -/
structure PowProxySection where
  pow_proxy_enabled : Option Bool
  pow_proxy_url : Option String
  deriving Repr, DecidableEq

/-- Values the proxy part of `_ensure_config_rows` inserts (database.py
lines 125-140): enabled flag and the normalized URL. -/
def ensure_proxy_row (cfg : Option ProxySection) : Bool × Option String :=
  match cfg with
  | none => (false, none)
  | some s => (s.proxy_enabled.getD false, pyStrOrNone s.proxy_url)

/-- Values the watermark part of `_ensure_config_rows` inserts
(database.py lines 142-168): flag, parse method, the two normalized
URL/token fields, and the fallback flag. -/
def ensure_watermark_row (cfg : Option WatermarkSection) :
    Bool × String × Option String × Option String × Bool :=
  match cfg with
  | none => (false, ("third_party"), none, none, true)
  | some s =>
    (s.watermark_free_enabled.getD false, s.parse_method.getD ("third_party"),
      pyStrOrNone s.custom_parse_url, pyStrOrNone s.custom_parse_token,
      s.fallback_on_failure.getD true)

/-- Values the cache part of `_ensure_config_rows` inserts (database.py
lines 170-187). -/
def ensure_cache_row (cfg : Option CacheSection) : Bool × Int × Option String :=
  match cfg with
  | none => (false, 600, none)
  | some s => (s.enabled.getD false, s.timeout.getD 600, pyStrOrNone s.base_url)

/-- Values the POW-proxy part of `_ensure_config_rows` inserts
(database.py lines 243-260). -/
def ensure_pow_proxy_row (cfg : Option PowProxySection) : Bool × Option String :=
  match cfg with
  | none => (false, none)
  | some s => (s.pow_proxy_enabled.getD false, pyStrOrNone s.pow_proxy_url)

/-- The singleton `proxy_config` row. -/
structure ProxyConfigRow where
  proxy_enabled : Bool
  proxy_url : Option String
  deriving Repr, DecidableEq

/-- Embedding of `update_proxy_config` (database.py lines 1168-1178): the
provided URL is stored verbatim, with no normalization. -/
def update_proxy_config (enabled : Bool) (proxy_url : Option String) :
    ProxyConfigRow :=
  { proxy_enabled := enabled, proxy_url := proxy_url }

/-- The singleton `cache_config` row. -/
structure CacheConfigRow where
  cache_enabled : Bool
  cache_timeout : Int
  cache_base_url : Option String
  deriving Repr, DecidableEq

/-- Embedding of `update_cache_config` (database.py lines 1223-1252):
missing parameters fall back to the current row (or the hard defaults
when no row exists), and the resulting base URL is normalized by the
Python truthiness test before storage. -/
def update_cache_config (row : Option CacheConfigRow) (enabled : Option Bool)
    (timeout : Option Int) (base_url : Option String) : CacheConfigRow :=
  match row with
  | some current =>
    { cache_enabled := enabled.getD current.cache_enabled,
      cache_timeout := timeout.getD current.cache_timeout,
      cache_base_url := pyStrOrNone (base_url.or current.cache_base_url) }
  | none =>
    { cache_enabled := enabled.getD false,
      cache_timeout := timeout.getD 600,
      cache_base_url := pyStrOrNone base_url }

/-- The singleton `pow_proxy_config` row. -/
structure PowProxyConfigRow where
  pow_proxy_enabled : Bool
  pow_proxy_url : Option String
  deriving Repr, DecidableEq

/-- Embedding of `update_pow_proxy_config` (database.py lines 1356-1372):
insert and update branches both store the provided URL verbatim, with no
normalization. -/
def update_pow_proxy_config (pow_proxy_enabled : Bool)
    (pow_proxy_url : Option String) : PowProxyConfigRow :=
  { pow_proxy_enabled := pow_proxy_enabled, pow_proxy_url := pow_proxy_url }

/-- The truthiness normalization never yields a stored empty string. -/
theorem pyStrOrNone_ne_empty (o : Option String) : pyStrOrNone o ≠ some ("") := by
  unfold pyStrOrNone
  rcases o with _ | v
  · simp
  · by_cases h : v = ("")
    · simp [h]
    · simp [h]

/-- Counterexample to C8: the proxy and POW-proxy update operations
store an explicitly provided empty string as the empty string, not as
NULL. -/
theorem empty_url_stored_cex :
    (update_proxy_config true (some (""))).proxy_url = some ("") ∧
    (update_pow_proxy_config true (some (""))).pow_proxy_url = some ("") := by
  exact ⟨rfl, rfl⟩

/-- C8 (amended): the bootstrap inserts normalize every optional
URL/token-like field (proxy URL, custom parse URL and token, cache base
URL, POW proxy URL) so that an empty string is never stored, and the
cache update operation normalizes likewise; the proxy and POW-proxy
update operations, however, store the provided value verbatim, so an
empty string can be stored through them. -/
theorem empty_url_normalization_amended (pc : Option ProxySection)
    (wc : Option WatermarkSection) (cc : Option CacheSection)
    (qc : Option PowProxySection) (row : Option CacheConfigRow)
    (e : Bool) (ob : Option Bool) (ot : Option Int) (u : Option String) :
    (ensure_proxy_row pc).2 ≠ some ("") ∧
    (ensure_watermark_row wc).2.2.1 ≠ some ("") ∧
    (ensure_watermark_row wc).2.2.2.1 ≠ some ("") ∧
    (ensure_cache_row cc).2.2 ≠ some ("") ∧
    (ensure_pow_proxy_row qc).2 ≠ some ("") ∧
    (update_cache_config row ob ot u).cache_base_url ≠ some ("") ∧
    (update_proxy_config e u).proxy_url = u ∧
    (update_pow_proxy_config e u).pow_proxy_url = u := by
  refine ⟨?_, ?_, ?_, ?_, ?_, ?_, rfl, rfl⟩
  · rcases pc with _ | s
    · simp [ensure_proxy_row]
    · exact pyStrOrNone_ne_empty s.proxy_url
  · rcases wc with _ | s
    · simp [ensure_watermark_row]
    · exact pyStrOrNone_ne_empty s.custom_parse_url
  · rcases wc with _ | s
    · simp [ensure_watermark_row]
    · exact pyStrOrNone_ne_empty s.custom_parse_token
  · rcases cc with _ | s
    · simp [ensure_cache_row]
    · exact pyStrOrNone_ne_empty s.base_url
  · rcases qc with _ | s
    · simp [ensure_pow_proxy_row]
    · exact pyStrOrNone_ne_empty s.pow_proxy_url
  · rcases row with _ | current
    · exact pyStrOrNone_ne_empty u
    · exact pyStrOrNone_ne_empty (u.or current.cache_base_url)

/-- Witness for C4 (amended): the success and stats-failure behaviors at
a concrete empty database and credential input. -/
theorem add_token_amended_witness :
    (add_token dbEmpty tokenInputEx 5 false false).1 = Except.ok dbEmpty.next_id ∧
    (add_token dbEmpty tokenInputEx 5 false false).2.tokens =
      dbEmpty.tokens ++ [newTokenRow tokenInputEx dbEmpty.next_id 5] ∧
    (add_token dbEmpty tokenInputEx 5 false false).2.stats =
      dbEmpty.stats ++ [zeroStatsRow dbEmpty.next_id] ∧
    (add_token dbEmpty tokenInputEx 5 false true).1 = Except.error () ∧
    (add_token dbEmpty tokenInputEx 5 false true).2.tokens =
      dbEmpty.tokens ++ [newTokenRow tokenInputEx dbEmpty.next_id 5] ∧
    (add_token dbEmpty tokenInputEx 5 false true).2.stats = dbEmpty.stats :=
  add_token_amended dbEmpty tokenInputEx 5

/-- Witness for C6 (amended): the two probes evaluated on a failing
query against an empty catalog. -/
theorem probe_failure_tolerance_amended_witness :
    column_exists [] true ("tokens") ("client_id") = Except.ok false ∧
    table_exists [] true ("tokens") = Except.error () :=
  probe_failure_tolerance_amended [] ("tokens") ("client_id")

/-- Witness for C8 (amended): bootstrap normalizes a concrete empty
proxy URL while the proxy update operation stores a concrete URL
verbatim. -/
theorem empty_url_normalization_amended_witness :
    (ensure_proxy_row
      (some { proxy_enabled := some true, proxy_url := some ("") })).2 ≠
      some ("") ∧
    (update_proxy_config true (some ("http://p:8080"))).proxy_url =
      some ("http://p:8080") :=
  ⟨(empty_url_normalization_amended
      (some { proxy_enabled := some true, proxy_url := some ("") })
      none none none none true none none (some ("http://p:8080"))).1,
    (empty_url_normalization_amended
      (some { proxy_enabled := some true, proxy_url := some ("") })
      none none none none true none none
      (some ("http://p:8080"))).2.2.2.2.2.2.1⟩
